import Mathlib

/-!
Shallow embedding of the PubMed Article Search and Summarizer application
(src/app.py).  Pure string-building and record-normalization logic is
translated directly; the two HTTP round trips and the XML parse are modelled
by passing their outcomes (`Except` values over parsed payload structures) as
inputs to the embedded functions, so that the exception-catching control flow
of the source becomes explicit case analysis.  String primitives of the
source language are re-implemented over character lists so that every
definition evaluates by kernel reduction.
-/

/-- Models Python `str.strip()` with no argument: removes leading and
trailing whitespace.  (Python also strips `\v` and `\f`; no input in any
claim contains those characters.) -/
def pyStrip (s : String) : String :=
  String.mk (((s.data.dropWhile Char.isWhitespace).reverse.dropWhile
    Char.isWhitespace).reverse)

/-- Models the Python idiom `sep.join(parts)`: the separator is placed exactly
between every pair of consecutive elements. -/
def joinSep (sep : String) : List String → String
  | [] => ""
  | [x] => x
  | x :: y :: xs => x ++ sep ++ joinSep sep (y :: xs)

/-- The value Python binds to `keywords_str` at src/app.py line 184: the
space-separated join of each keyword that is non-blank after stripping,
each wrapped in double quotes. -/
def quotedKeywordsStr (keywords : List String) : String :=
  joinSep (" ") (((keywords.filter (fun kw => pyStrip kw ≠ "")).map
    (fun kw => "\"" ++ kw ++ "\"")))

/-- The contribution of the keyword group to `query_parts` (src/app.py lines
187-188): the quoted keywords inside one pair of parentheses, appended only
when the joined string is non-empty. -/
def keywordClause (keywords : List String) : List String :=
  if quotedKeywordsStr keywords ≠ "" then
    [("(" ++ quotedKeywordsStr keywords ++ ")")]
  else []

/-- The contribution of the disease input to `query_parts` (src/app.py lines
190-191): a MeSH-term match or-ed with a free-text match, appended only when
the disease is present and non-blank. -/
def diseaseClause (disease : Option String) : List String :=
  match disease with
  | some d =>
    if pyStrip d ≠ "" then
      [("(\"" ++ d ++ "\"[MeSH Terms] OR \"" ++ d ++ "\"[All Fields])")]
    else []
  | none => []

/-- The contribution of the year range to `query_parts` (src/app.py lines
193-195), appended only when the year list has exactly two entries. -/
def yearClause (year_range : Option (List Int)) : List String :=
  match year_range with
  | some [start_year, end_year] =>
    [("(" ++ toString start_year ++ "[PDAT]:" ++ toString end_year ++ "[PDAT])")]
  | _ => []

/-- The contribution of the author input to `query_parts` (src/app.py lines
197-198). -/
def authorClause (author : Option String) : List String :=
  match author with
  | some a => if pyStrip a ≠ "" then [("\"" ++ a ++ "\"[Author]")] else []
  | none => []

/-- The contribution of the journal input to `query_parts` (src/app.py lines
200-201). -/
def journalClause (journal : Option String) : List String :=
  match journal with
  | some j => if pyStrip j ≠ "" then [("\"" ++ j ++ "\"[Journal]")] else []
  | none => []

/-- The `query_parts` list of `build_pubmed_query` (src/app.py lines
185-201): the five potential clauses appended in source order. -/
def queryParts (keywords : List String) (disease : Option String)
    (year_range : Option (List Int)) (author : Option String)
    (journal : Option String) : List String :=
  keywordClause keywords ++ diseaseClause disease ++ yearClause year_range
    ++ authorClause author ++ journalClause journal

/-- Embeds `build_pubmed_query` (src/app.py lines 182-204): the collected
clauses are joined with the logic operator surrounded by single spaces. -/
def build_pubmed_query (keywords : List String) (disease : Option String)
    (year_range : Option (List Int)) (author : Option String)
    (journal : Option String) (logic_operator : String) : String :=
  joinSep (" " ++ logic_operator ++ " ")
    (queryParts keywords disease year_range author journal)

/-- Digit run to a natural number, used to model Python `int` on a decimal
string. -/
def digitsToNat (l : List Char) : Nat :=
  l.foldl (fun acc c => acc * 10 + (c.toNat - 48)) 0

/-- Models Python `int(s)` on a string: surrounding whitespace is stripped, an
optional single sign is allowed, and the rest must be a non-empty run of
decimal digits; any other shape raises `ValueError`, modelled as `none`.
(Python additionally allows underscore separators between digits; no claim
depends on that case.) -/
def pyInt? (s : String) : Option Int :=
  let t := (pyStrip s).data
  let core := match t with
    | '-' :: rest => rest
    | '+' :: rest => rest
    | l => l
  let neg := match t with
    | '-' :: _ => true
    | _ => false
  if !core.isEmpty && core.all Char.isDigit then
    some (if neg then -(Int.ofNat (digitsToNat core)) else Int.ofNat (digitsToNat core))
  else none

/-- The parsed JSON payload of the esearch response: the `esearchresult`
object with its `count` field (a string when present; `none` models a missing
key, whose access raises `KeyError`) and its `idlist` array. -/
structure ESearchResult where
  count : Option String
  idlist : List String
deriving DecidableEq, Repr

/-- Embeds `fetch_pubmed_count` (src/app.py lines 206-222).  The HTTP round
trip together with `.json()` is modelled by the `response` argument: `.error`
stands for any exception raised while requesting or decoding.  The source
wraps the whole body in `try/except Exception` and returns `0` from the
handler, so a missing `count` key and a non-numeric `count` value also
produce `0`. -/
def fetch_pubmed_count (response : Except String ESearchResult) : Int :=
  match response with
  | .error _ => 0
  | .ok r =>
    match r.count with
    | none => 0
    | some s =>
      match pyInt? s with
      | some n => n
      | none => 0

/-- One `<Author>` element of the efetch XML, reduced to the child tags the
application inspects or that the spec mentions: `author.find("lastname")` and
`author.find("forename")` are the only lookups the source performs
(src/app.py lines 271-277); `initials` and `collectivename` are carried so
that records having them can be expressed, but the source never reads them. -/
structure AuthorXml where
  lastname : Option String
  forename : Option String
  initials : Option String
  collectivename : Option String
deriving DecidableEq, Repr

/-- Embeds the author loop of `fetch_pubmed_articles` (src/app.py lines
270-278): for each author tag, when both lastname and forename tags are
present the entry is forename, space, lastname; when only the lastname tag is
present the entry is the lastname; otherwise the author contributes nothing.
When no entry was produced the list is the single fallback entry. -/
def parseAuthors (author_tags : List AuthorXml) : List String :=
  let authors := author_tags.foldl (fun acc author =>
    match author.lastname, author.forename with
    | some last, some fore => acc ++ [fore ++ " " ++ last]
    | some last, none => acc ++ [last]
    | none, _ => acc) []
  if authors.isEmpty then [("No authors listed")] else authors

/-- One `<AbstractText>` section of a structured abstract: its `Label`
attribute (an XML attribute, hence never part of the text content) and its
text content. -/
structure AbstractSection where
  label : Option String
  text : String
deriving DecidableEq, Repr

/-- Embeds `abstract_tag.get_text(separator=" ", strip=True)` (src/app.py
line 268) on an abstract consisting of `AbstractText` sections: BeautifulSoup
collects the text nodes of the subtree, strips each, drops the ones that are
entirely whitespace, and joins the rest with the separator.  Attributes such
as `Label` are not text nodes and never appear in the output. -/
def normalizeAbstract (sections : List AbstractSection) : String :=
  joinSep (" ") (((sections.map (fun s => pyStrip s.text)).filter
    (fun t => t ≠ "")))

/-- Embeds the keyword extraction of `fetch_pubmed_articles` (src/app.py
lines 265 and 286): the stripped texts of the `<Keyword>` tags when at least
one is present, and the empty list otherwise. -/
def extractKeywords (keyword_tags : List String) : List String :=
  if keyword_tags.isEmpty then [] else keyword_tags.map (fun kw => pyStrip kw)

/-- The `<PubDate>` element, reduced to the three child tags the application
inspects (src/app.py lines 290-292). -/
structure PubDate where
  year : Option String
  month : Option String
  day : Option String
deriving DecidableEq, Repr

/-- Embeds the publication-date formatting of `fetch_pubmed_articles`
(src/app.py lines 288-298): with a pubdate tag present, month-day-year,
month-year, or the year alone, depending on which child tags exist, and the
fallback text otherwise. -/
def formatPubDate (date_tag : Option PubDate) : String :=
  match date_tag with
  | none => "No date"
  | some d =>
    match d.year, d.month, d.day with
    | some y, some m, some dd => m ++ " " ++ dd ++ ", " ++ y
    | some y, some m, none => m ++ " " ++ y
    | some y, none, _ => y
    | none, _, _ => "No date"

/-- One `<PubmedArticle>` element of the efetch XML, reduced to the
substructures the application inspects.  `journal` models
`article.find("journal")` (outer option) combined with the nested
`journal_tag.find("title")` (inner option, its stripped text).
`mesh_descriptors` carries the `<DescriptorName>` texts of the record; the
source never reads them. -/
structure ArticleXml where
  articletitle : Option String
  abstract : Option (List AbstractSection)
  pubdate : Option PubDate
  author_tags : List AuthorXml
  journal : Option (Option String)
  keyword_tags : List String
  mesh_descriptors : List String
deriving DecidableEq, Repr

/-- One normalized article record, as assembled at src/app.py lines 302-311. -/
structure ArticleRecord where
  title : String
  abstract : String
  authors : List String
  publication_date : String
  journal : String
  keywords : List String
  article_url : String
  pmid : String
deriving DecidableEq, Repr

/-- Embeds the per-record projection of `fetch_pubmed_articles` (src/app.py
lines 259-311): one XML record plus the identifier it was zipped with. -/
def parseArticle (article : ArticleXml) (pmid : String) : ArticleRecord :=
  { title := match article.articletitle with
      | some t => pyStrip t
      | none => "No title"
    abstract := match article.abstract with
      | some sections => normalizeAbstract sections
      | none => "No abstract available"
    authors := parseAuthors article.author_tags
    publication_date := formatPubDate article.pubdate
    journal := match article.journal with
      | some (some t) => pyStrip t
      | _ => "Unknown Journal"
    keywords := extractKeywords article.keyword_tags
    article_url := "https://pubmed.ncbi.nlm.nih.gov/" ++ pmid ++ "/"
    pmid := pmid }

/-- Embeds `generate_mock_data` (src/app.py lines 322-377): five fixed
demonstration records whose publication dates are built from the current
calendar year, passed here as a parameter. -/
def generate_mock_data (current_year : Int) : List ArticleRecord :=
  [ { title := "Recent Advances in Treatment Approaches for Autoimmune Disorders"
      abstract := "This comprehensive review examines the latest therapeutic approaches for autoimmune disorders, focusing on targeted immunomodulators and personalized medicine strategies. We analyze clinical trials data from the past five years and discuss emerging treatment paradigms."
      authors := [("Sarah J. Wilson"), ("Michael Chang"), ("Priya Patel")]
      publication_date := "January " ++ toString current_year
      journal := "Journal of Clinical Immunology"
      keywords := [("autoimmune disorders"), ("immunomodulators"), ("personalized medicine")]
      article_url := "https://pubmed.ncbi.nlm.nih.gov/sample1/"
      pmid := "sample1" },
    { title := "Machine Learning Applications in Early Disease Detection"
      abstract := "This study evaluates the efficacy of various machine learning algorithms in predicting disease onset from biomarker data. Using a dataset of 10,000 patients across multiple centers, we demonstrate significant improvements in early detection rates for several chronic conditions."
      authors := [("David A. Roberts"), ("Emma L. Thompson")]
      publication_date := "March " ++ toString current_year
      journal := "Digital Health Research"
      keywords := [("machine learning"), ("disease prediction"), ("biomarkers")]
      article_url := "https://pubmed.ncbi.nlm.nih.gov/sample2/"
      pmid := "sample2" },
    { title := "Comparative Effectiveness of Novel Anticoagulants in Preventing Stroke"
      abstract := "This meta-analysis compares outcomes of direct oral anticoagulants versus traditional therapy in stroke prevention. Results indicate superior efficacy profiles for newer agents with reduced bleeding risks in specific patient populations."
      authors := [("Jennifer M. Lopez"), ("Robert K. Chen"), ("Thomas Wilson")]
      publication_date := "June " ++ toString (current_year - 1)
      journal := "Stroke Prevention Research"
      keywords := [("anticoagulants"), ("stroke prevention"), ("meta-analysis")]
      article_url := "https://pubmed.ncbi.nlm.nih.gov/sample3/"
      pmid := "sample3" },
    { title := "Genetic Markers for Treatment Response in Major Depressive Disorder"
      abstract := "This research identifies specific genetic polymorphisms associated with differential responses to antidepressant medications. The findings suggest potential for genotype-guided treatment selection to improve outcomes in depression management."
      authors := [("Natasha Singh"), ("Carlos Rodriguez")]
      publication_date := "October " ++ toString (current_year - 1)
      journal := "Journal of Psychiatric Genetics"
      keywords := [("depression"), ("pharmacogenomics"), ("personalized psychiatry")]
      article_url := "https://pubmed.ncbi.nlm.nih.gov/sample4/"
      pmid := "sample4" },
    { title := "Microbiome Alterations Associated with Inflammatory Bowel Disease Progression"
      abstract := "This longitudinal study tracks changes in gut microbiota composition during inflammatory bowel disease progression. We identify specific bacterial signatures that precede clinical flares and may serve as early warning biomarkers."
      authors := [("Ahmed Hassan"), ("Julia Chen"), ("Marcus Williams")]
      publication_date := "April " ++ toString (current_year - 1)
      journal := "Gastroenterology Research"
      keywords := [("microbiome"), ("inflammatory bowel disease"), ("biomarkers")]
      article_url := "https://pubmed.ncbi.nlm.nih.gov/sample5/"
      pmid := "sample5" } ]

/-- The success path of `fetch_pubmed_articles` (src/app.py line 259):
`for article, pmid in zip(articles_xml, id_list)`, each pair projected to a
record. -/
def fetch_articles_ok (articles_xml : List ArticleXml) (id_list : List String) :
    List ArticleRecord :=
  (articles_xml.zip id_list).map (fun p => parseArticle p.1 p.2)

/-- Embeds `fetch_pubmed_articles` (src/app.py lines 224-320).  The first
HTTP round trip with its JSON decoding and `idlist` access is modelled by
`search`; the second round trip together with the BeautifulSoup parse is
modelled by `fetch` — `.error` stands for any exception on the respective
step.  The source catches every exception of both steps in one handler and
returns either the demonstration records or the empty list; with a non-empty
identifier list and a successful fetch it returns the zipped projection. -/
def fetch_pubmed_articlesM (search : Except String (List String))
    (fetch : Except String (List ArticleXml)) (use_mock_if_empty : Bool)
    (current_year : Int) : List ArticleRecord :=
  match search with
  | .error _ =>
    if use_mock_if_empty then generate_mock_data current_year else []
  | .ok id_list =>
    if id_list.isEmpty then
      if use_mock_if_empty then generate_mock_data current_year else []
    else
      match fetch with
      | .error _ =>
        if use_mock_if_empty then generate_mock_data current_year else []
      | .ok articles_xml => fetch_articles_ok articles_xml id_list

/-- A word character in the sense of the regex metacharacter backslash-b used
at src/app.py line 513 (ASCII range; no claim involves non-ASCII input). -/
def isWordChar (c : Char) : Bool := c.isAlphanum || c == '_'

/-- One attempt of the regex engine to match the pattern of src/app.py line
513 at the current position: four characters beginning 19 or 20 followed by
two digits, with a word boundary on each side (`prev` is the character just
before the current position, if any). -/
def yearAt (prev : Option Char) : List Char → Option String
  | c0 :: c1 :: c2 :: c3 :: rest =>
    if (match prev with
        | some p => !isWordChar p
        | none => true)
       && ((c0 == '1' && c1 == '9') || (c0 == '2' && c1 == '0'))
       && c2.isDigit && c3.isDigit
       && (match rest with
           | [] => true
           | r :: _ => !isWordChar r)
    then some (String.mk [c0, c1, c2, c3])
    else none
  | _ => none

/-- Models `re.search` with the year pattern of src/app.py line 513: the
match at the leftmost position where one exists. -/
def findYear (prev : Option Char) : List Char → Option String
  | [] => none
  | c :: rest =>
    match yearAt prev (c :: rest) with
    | some y => some y
    | none => findYear (some c) rest

/-- Embeds `generate_citation` (src/app.py lines 501-516): the author
attribution chosen by the length of the author list, the year extracted by
the first match of the regex year pattern in the publication date (falling
back to the no-date marker), and the assembled citation line. -/
def generate_citation (article : ArticleRecord) : String :=
  let authors := article.authors
  let author_text :=
    if authors.length = 1 then authors.getD 0 ("")
    else if authors.length = 2 then
      authors.getD 0 ("") ++ " & " ++ authors.getD 1 ("")
    else if authors.length > 2 then authors.getD 0 ("") ++ " et al."
    else "Unknown"
  let year :=
    match findYear none article.publication_date.data with
    | some y => y
    | none => "n.d."
  author_text ++ ". (" ++ year ++ "). " ++ article.title ++ ". "
    ++ article.journal ++ ". Retrieved from " ++ article.article_url

/-- Models Python `s.split(',')`: splits at every comma, keeping empty
pieces; the empty string yields one empty piece. -/
def splitCommaAux : List Char → List Char → List String
  | [], acc => [String.mk acc.reverse]
  | c :: rest, acc =>
    if c == ',' then String.mk acc.reverse :: splitCommaAux rest []
    else splitCommaAux rest (c :: acc)

/-- Models Python `keywords.split(',')` on a whole string. -/
def pySplitComma (s : String) : List String := splitCommaAux s.data []

/-- The observable outcome of the search-form handler: either a PubMed search
is performed with the built query (the only outcome that issues the
`fetch_pubmed_count` and `fetch_pubmed_articles` network requests), or the
handler stops with the warning that asks the user for keywords or a disease,
issuing no request. -/
inductive SearchAction where
  | performSearch (query : String)
  | warnEmpty
deriving DecidableEq, Repr

/-- Embeds the search handler (src/app.py lines 592-610): the comma-separated
keyword field is split, stripped and filtered; the year range is the two-item
list when both year numbers are truthy (non-zero); the query is built, and an
empty query leads to the warning branch, which issues no network request. -/
def handle_search (keywords disease author journal : String)
    (start_year end_year : Int) (logic_operator : String) : SearchAction :=
  let keyword_list :=
    ((pySplitComma keywords).map (fun k => pyStrip k)).filter (fun k => k ≠ "")
  let year_range :=
    if start_year ≠ 0 ∧ end_year ≠ 0 then some [start_year, end_year] else none
  let query := build_pubmed_query keyword_list (some disease) year_range
    (some author) (some journal) logic_operator
  if query ≠ "" then SearchAction.performSearch query else SearchAction.warnEmpty

/-- The per-author rendering performed by the source loop (src/app.py lines
271-277), written as one total function for use in statements about
`parseAuthors`. -/
def renderAuthor (author : AuthorXml) : Option String :=
  match author.lastname, author.forename with
  | some last, some fore => some (fore ++ " " ++ last)
  | some last, none => some last
  | none, _ => none

/-- The amended claim C2 as a definition: an author with both forename and
lastname tags renders as forename-space-lastname, an author with only a
lastname tag renders as the bare lastname, every other author (initials-only
and collective or organizational names included) is skipped, and when no
author was rendered the list is exactly the single fallback entry. -/
def authorsAmended (author_tags : List AuthorXml) : List String :=
  match author_tags.filterMap renderAuthor with
  | [] => [("No authors listed")]
  | rendered => rendered

/-- The author attribution exactly as claim C7 states it: the single name,
the ampersand pair, the et-al form, or the unknown marker, by author count. -/
def citationAuthorText (authors : List String) : String :=
  match authors with
  | [] => "Unknown"
  | [a] => a
  | [a, b] => a ++ " & " ++ b
  | a :: _ :: _ :: _ => a ++ " et al."

/-- The cited year exactly as claim C7 states it: the first match of the
19xx-or-20xx four-digit pattern in the publication-date string, or the
no-date marker when no match exists. -/
def citationYear (publication_date : String) : String :=
  match findYear none publication_date.data with
  | some y => y
  | none => "n.d."

/-- A minimal efetch record with every optional substructure absent, used to
instantiate general theorems on a concrete input. -/
def sampleXml : ArticleXml := ⟨none, none, none, [], none, [], []⟩

/-! Helper lemmas. -/

theorem strData_append (s t : String) : (s ++ t).data = s.data ++ t.data := rfl

theorem str_append_ne_empty (p s : String) (hp : p ≠ "") : p ++ s ≠ "" := by
  intro h
  apply hp
  have h2 : p.data ++ s.data = ([] : List Char) := congrArg String.data h
  exact String.ext ((List.append_eq_nil.mp h2).1)

theorem joinSepInfixOfMem (sep : String) :
    ∀ (l : List String) (x : String), x ∈ l → x.data <:+: (joinSep sep l).data := by
  intro l
  induction l with
  | nil => intro x hx; cases hx
  | cons a t ih =>
    intro x hx
    cases t with
    | nil =>
      have hxa : x = a := by simpa using hx
      subst hxa
      exact List.infix_rfl
    | cons b t2 =>
      rcases List.mem_cons.mp hx with hxa | hxt
      · subst hxa
        show x.data <:+: (x ++ sep ++ joinSep sep (b :: t2)).data
        rw [strData_append, strData_append, List.append_assoc]
        exact (List.prefix_append _ _).isInfix
      · show x.data <:+: (a ++ sep ++ joinSep sep (b :: t2)).data
        rw [strData_append]
        exact (ih x hxt).trans (List.suffix_append _ _).isInfix

theorem mem_ite_singleton {α : Type} {P : Prop} [Decidable P] {x c : α}
    (h : c ∈ if P then [x] else []) : c = x := by
  split at h
  · simpa using h
  · cases h

/-! Claim theorems. -/

/-- C1: for every keyword list containing at least one non-blank keyword,
the query built by `build_pubmed_query` contains each such keyword wrapped in
double quotes; the quoted keywords are grouped inside one pair of parentheses
forming the head clause, the remaining clauses being exactly those built from
the disease, year-range, author and journal inputs; the result is the clause
list joined with the logic operator surrounded by single spaces (`joinSep`
places the separator exactly between every pair of consecutive elements); and
every clause in the list is non-empty. -/
theorem C1_build_query (keywords : List String) (disease : Option String)
    (year_range : Option (List Int)) (author : Option String)
    (journal : Option String) (logic_operator : String)
    (h : ∃ kw ∈ keywords, pyStrip kw ≠ "") :
    (∀ kw ∈ keywords, pyStrip kw ≠ "" →
      ("\"" ++ kw ++ "\"").data <:+:
        (build_pubmed_query keywords disease year_range author journal
          logic_operator).data)
    ∧ queryParts keywords disease year_range author journal
        = ("(" ++ quotedKeywordsStr keywords ++ ")")
            :: (diseaseClause disease ++ yearClause year_range
                ++ authorClause author ++ journalClause journal)
    ∧ build_pubmed_query keywords disease year_range author journal logic_operator
        = joinSep (" " ++ logic_operator ++ " ")
            (queryParts keywords disease year_range author journal)
    ∧ ∀ c ∈ queryParts keywords disease year_range author journal, c ≠ "" := by
  have hquoted : ∀ kw ∈ keywords, pyStrip kw ≠ "" →
      ("\"" ++ kw ++ "\"").data <:+: (quotedKeywordsStr keywords).data := by
    intro kw hkw hne
    apply joinSepInfixOfMem
    exact List.mem_map_of_mem _ (List.mem_filter.mpr ⟨hkw, by simpa using hne⟩)
  have hksne : quotedKeywordsStr keywords ≠ "" := by
    obtain ⟨kw0, hkw0, hne0⟩ := h
    intro h0
    have hinf := hquoted kw0 hkw0 hne0
    rw [h0] at hinf
    have h1 := List.infix_nil.mp hinf
    have h2 : ("\"" ++ kw0 ++ "\"").data = '\"' :: (kw0.data ++ ['\"']) := by
      rw [strData_append, strData_append]
      rfl
    rw [h2] at h1
    cases h1
  have hkc : keywordClause keywords = [("(" ++ quotedKeywordsStr keywords ++ ")")] := by
    simp only [keywordClause]
    rw [if_pos hksne]
  have hparts : queryParts keywords disease year_range author journal
      = ("(" ++ quotedKeywordsStr keywords ++ ")")
          :: (diseaseClause disease ++ yearClause year_range
              ++ authorClause author ++ journalClause journal) := by
    simp [queryParts, hkc]
  refine ⟨?_, hparts, rfl, ?_⟩
  · intro kw hkw hne
    have d1 := hquoted kw hkw hne
    have d2 : (quotedKeywordsStr keywords).data
        <:+: ("(" ++ quotedKeywordsStr keywords ++ ")").data := by
      rw [strData_append, strData_append]
      exact List.infix_append _ _ _
    have d3 : ("(" ++ quotedKeywordsStr keywords ++ ")").data
        <:+: (build_pubmed_query keywords disease year_range author journal
          logic_operator).data := by
      apply joinSepInfixOfMem
      rw [hparts]
      exact List.mem_cons_self _ _
    exact (d1.trans d2).trans d3
  · intro c hc
    simp only [queryParts, List.mem_append] at hc
    rcases hc with (((hc | hc) | hc) | hc) | hc
    · have := mem_ite_singleton (by simpa [keywordClause] using hc)
      subst this
      exact str_append_ne_empty _ _ (str_append_ne_empty _ _ (by decide))
    · rcases disease with _ | d
      · cases hc
      · have := mem_ite_singleton (by simpa [diseaseClause] using hc)
        subst this
        exact str_append_ne_empty _ _ (str_append_ne_empty _ _
          (str_append_ne_empty _ _ (str_append_ne_empty _ _ (by decide))))
    · rcases year_range with _ | yr
      · cases hc
      · rcases yr with _ | ⟨a, _ | ⟨b, _ | ⟨c2, t⟩⟩⟩
        · cases hc
        · cases hc
        · have := mem_ite_singleton (P := True) (by simpa [yearClause] using hc)
          subst this
          exact str_append_ne_empty _ _ (str_append_ne_empty _ _
            (str_append_ne_empty _ _ (str_append_ne_empty _ _ (by decide))))
        · cases hc
    · rcases author with _ | a
      · cases hc
      · have := mem_ite_singleton (by simpa [authorClause] using hc)
        subst this
        exact str_append_ne_empty _ _ (str_append_ne_empty _ _ (by decide))
    · rcases journal with _ | j
      · cases hc
      · have := mem_ite_singleton (by simpa [journalClause] using hc)
        subst this
        exact str_append_ne_empty _ _ (str_append_ne_empty _ _ (by decide))

/-- C1 witness: the theorem instantiated at a concrete call. -/
theorem C1_build_query_witness :
    (∃ kw ∈ [("covid")], pyStrip kw ≠ "")
    ∧ ("\"" ++ "covid" ++ "\"").data <:+:
        (build_pubmed_query [("covid")] (some ("flu")) (some [2020, 2024])
          (some ("")) none ("AND")).data
    ∧ build_pubmed_query [("covid")] (some ("flu")) (some [2020, 2024])
        (some ("")) none ("AND")
      = "(\"covid\") AND (\"flu\"[MeSH Terms] OR \"flu\"[All Fields]) AND (2020[PDAT]:2024[PDAT])" :=
  ⟨⟨("covid"), by decide, by decide⟩,
   (C1_build_query [("covid")] (some ("flu")) (some [2020, 2024]) (some ("")) none
      ("AND") ⟨("covid"), by decide, by decide⟩).1 ("covid") (by decide) (by decide),
   by decide⟩

theorem parseAuthors_foldl (author_tags : List AuthorXml) (acc : List String) :
    author_tags.foldl (fun acc author =>
      match author.lastname, author.forename with
      | some last, some fore => acc ++ [fore ++ " " ++ last]
      | some last, none => acc ++ [last]
      | none, _ => acc) acc
      = acc ++ author_tags.filterMap renderAuthor := by
  induction author_tags generalizing acc with
  | nil => simp
  | cons a t ih =>
    simp only [List.foldl_cons, List.filterMap_cons]
    cases hl : a.lastname <;> cases hf : a.forename <;>
      simp [renderAuthor, hl, hf, ih]

/-- C2 counterexample: the claim promises the rendering "Initials Lastname"
when the forename is absent, and the rendering of collective or
organizational names; on an author record carrying a lastname and initials
but no forename the code renders the bare lastname, and on a record carrying
only a collective name the code resolves no author at all. -/
theorem C2_authors_counterexample :
    parseAuthors [⟨some ("Smith"), none, some ("JA"), none⟩] ≠ [("JA Smith")]
    ∧ parseAuthors [⟨some ("Smith"), none, some ("JA"), none⟩] = [("Smith")]
    ∧ parseAuthors [⟨none, none, none, some ("COVID Study Group")⟩]
        ≠ [("COVID Study Group")]
    ∧ parseAuthors [⟨none, none, none, some ("COVID Study Group")⟩]
        = [("No authors listed")] :=
  ⟨by decide, by decide, by decide, by decide⟩

/-- C2 amended: each author is rendered as "Forename Lastname" when both tags
are present and as the bare lastname when only the lastname tag is present;
every other author — initials-only authors and collective or organizational
names included — is skipped; and when no author is resolvable the list is
exactly the single fallback entry. -/
theorem C2_authors_amended (author_tags : List AuthorXml) :
    parseAuthors author_tags = authorsAmended author_tags := by
  simp only [parseAuthors, authorsAmended]
  rw [parseAuthors_foldl]
  simp only [List.nil_append]
  cases author_tags.filterMap renderAuthor with
  | nil => simp
  | cons x xs => simp

/-- C3 counterexample: on the structured abstract of the claim the code
produces the space-joined section texts, not the label-prefixed form the
claim states — `get_text` collects text nodes only, and a section label is an
XML attribute. -/
theorem C3_abstract_counterexample :
    normalizeAbstract [⟨some ("Background"), "A"⟩, ⟨some ("Methods"), "B"⟩] = "A B"
    ∧ normalizeAbstract [⟨some ("Background"), "A"⟩, ⟨some ("Methods"), "B"⟩]
        ≠ "Background: A Methods: B " :=
  ⟨by decide, by decide⟩

/-- C3 amended: the normalized abstract of a structured abstract is the
space-separated concatenation, in section order, of the stripped section
texts; section labels do not appear, and there is no trailing space. -/
theorem C3_abstract_amended (sections : List AbstractSection)
    (h : ∀ s ∈ sections, pyStrip s.text ≠ "") :
    normalizeAbstract sections
      = joinSep (" ") (sections.map (fun s => pyStrip s.text)) := by
  simp only [normalizeAbstract]
  congr 1
  apply List.filter_eq_self.mpr
  intro t ht
  rcases List.mem_map.mp ht with ⟨s, hs, rfl⟩
  simpa using h s hs

/-- C3 witness: the amended theorem instantiated at the section list of the
claim. -/
theorem C3_abstract_amended_witness :
    (∀ s ∈ [(⟨some ("Background"), "A"⟩ : AbstractSection),
        ⟨some ("Methods"), "B"⟩], pyStrip s.text ≠ "")
    ∧ normalizeAbstract [⟨some ("Background"), "A"⟩, ⟨some ("Methods"), "B"⟩]
        = joinSep (" ")
            ([(⟨some ("Background"), "A"⟩ : AbstractSection),
              ⟨some ("Methods"), "B"⟩].map (fun s => pyStrip s.text)) :=
  ⟨by decide, C3_abstract_amended _ (by decide)⟩

/-- C4 counterexample: on a record with no explicit keyword tags but with a
MeSH descriptor name, the parsed keywords field is empty — the code never
falls back to MeSH descriptor names, contrary to the claim, which promises
up to 5 of them. -/
theorem C4_keywords_counterexample :
    (parseArticle ⟨none, none, none, [], none, [], [("Neoplasms")]⟩ ("1")).keywords = []
    ∧ (parseArticle ⟨none, none, none, [], none, [], [("Neoplasms")]⟩ ("1")).keywords
        ≠ ([("Neoplasms")] : List String).take 5 :=
  ⟨by decide, by decide⟩

/-- C4 amended: the keywords field holds the stripped texts of the explicit
keyword tags, is empty when the record has none, and never depends on the
MeSH descriptor names of the record. -/
theorem C4_keywords_amended (article : ArticleXml) (pmid : String) :
    (parseArticle article pmid).keywords
      = article.keyword_tags.map (fun kw => pyStrip kw)
    ∧ ∀ mesh, (parseArticle { article with mesh_descriptors := mesh } pmid).keywords
        = (parseArticle article pmid).keywords := by
  constructor
  · simp only [parseArticle, extractKeywords]
    cases article.keyword_tags <;> simp
  · intro mesh
    rfl

/-- C5: the embedded `fetch_pubmed_articlesM` is a total function — every
exception of either HTTP call or of the XML parse is an `.error` input, and
the function returns a value on every input rather than propagating — and on
a search error, on an empty identifier list, and on a fetch or parse error
alike, the result is the fixed demonstration list when substitution is
enabled and the empty list otherwise; the demonstration list has exactly 5
records whose titles are fixed independently of the current year. -/
theorem C5_failure_policy (search : Except String (List String))
    (fetch : Except String (List ArticleXml)) (use_mock_if_empty : Bool)
    (current_year : Int) :
    (∀ e, search = .error e →
      fetch_pubmed_articlesM search fetch use_mock_if_empty current_year
        = if use_mock_if_empty then generate_mock_data current_year else [])
    ∧ (search = .ok [] →
      fetch_pubmed_articlesM search fetch use_mock_if_empty current_year
        = if use_mock_if_empty then generate_mock_data current_year else [])
    ∧ (∀ ids e, search = .ok ids → fetch = .error e →
      fetch_pubmed_articlesM search fetch use_mock_if_empty current_year
        = if use_mock_if_empty then generate_mock_data current_year else [])
    ∧ (generate_mock_data current_year).length = 5
    ∧ (generate_mock_data current_year).map (fun a => a.title)
        = [("Recent Advances in Treatment Approaches for Autoimmune Disorders"),
           ("Machine Learning Applications in Early Disease Detection"),
           ("Comparative Effectiveness of Novel Anticoagulants in Preventing Stroke"),
           ("Genetic Markers for Treatment Response in Major Depressive Disorder"),
           ("Microbiome Alterations Associated with Inflammatory Bowel Disease Progression")] := by
  refine ⟨?_, ?_, ?_, rfl, rfl⟩
  · rintro e rfl
    rfl
  · rintro rfl
    rfl
  · rintro ids e rfl rfl
    simp [fetch_pubmed_articlesM]

/-- C5 witness: the theorem applied at a search failure and at a zero-result
search, both with substitution enabled. -/
theorem C5_failure_policy_witness :
    (fetch_pubmed_articlesM (.error ("network down")) (.error ("x")) true 2025
      = if true then generate_mock_data 2025 else [])
    ∧ (fetch_pubmed_articlesM (.ok []) (.ok []) true 2025
      = if true then generate_mock_data 2025 else []) :=
  ⟨(C5_failure_policy (.error ("network down")) (.error ("x")) true 2025).1
      ("network down") rfl,
   (C5_failure_policy (.ok []) (.ok []) true 2025).2.1 rfl⟩

/-- C6: `fetch_pubmed_count` returns the integer value of the count field of
the search response, and returns 0 on a transport failure, on a missing count
field, and on a non-numeric count field; on the search JSON of the spec
example the count is 42 and the identifier list has length 2. -/
theorem C6_fetch_count (e s : String) (l : List String) (n : Int) :
    fetch_pubmed_count (.error e) = 0
    ∧ fetch_pubmed_count (.ok ⟨none, l⟩) = 0
    ∧ (pyInt? s = none → fetch_pubmed_count (.ok ⟨some s, l⟩) = 0)
    ∧ (pyInt? s = some n → fetch_pubmed_count (.ok ⟨some s, l⟩) = n)
    ∧ fetch_pubmed_count (.ok ⟨some ("42"), [("1"), ("2")]⟩) = 42
    ∧ (ESearchResult.mk (some ("42")) [("1"), ("2")]).idlist.length = 2 := by
  refine ⟨rfl, rfl, ?_, ?_, by decide, rfl⟩
  · intro hs
    simp [fetch_pubmed_count, hs]
  · intro hs
    simp [fetch_pubmed_count, hs]

/-- C6 witness: the theorem applied at the count string of the spec example. -/
theorem C6_fetch_count_witness :
    pyInt? ("42") = some 42
    ∧ fetch_pubmed_count (.ok ⟨some ("42"), [("1"), ("2")]⟩) = 42 :=
  ⟨by decide,
   (C6_fetch_count ("x") ("42") [("1"), ("2")] 42).2.2.2.1 (by decide)⟩

/-- C7: `generate_citation` is a pure function of one article record equal to
the concatenation of the claimed author attribution (single name, ampersand
pair, et-al form, or the unknown marker, by author count), the year given by
the first match of the 19xx-or-20xx four-digit pattern in the publication
date (or the no-date marker), the title, the journal and the URL. -/
theorem C7_generate_citation (article : ArticleRecord) :
    generate_citation article
      = citationAuthorText article.authors ++ ". ("
        ++ citationYear article.publication_date ++ "). " ++ article.title
        ++ ". " ++ article.journal ++ ". Retrieved from " ++ article.article_url := by
  rcases article with ⟨t, ab, authors, pd, j, kws, url, pmid⟩
  rcases authors with _ | ⟨a, _ | ⟨b, _ | ⟨c, rest⟩⟩⟩
  · simp [generate_citation, citationAuthorText, citationYear]
  · simp [generate_citation, citationAuthorText, citationYear]
  · simp [generate_citation, citationAuthorText, citationYear]
  · simp only [generate_citation, citationAuthorText, citationYear,
      List.length_cons]
    rw [if_neg (by omega), if_neg (by omega), if_pos (by omega)]
    simp

/-- C8: the publication date follows the best-effort precedence — month, day
and year when all three child tags are present; month and year when the day
tag is absent; the year alone when the month tag is absent; and the fallback
text when the year tag or the whole pubdate tag is absent. -/
theorem C8_publication_date (y m d : String) :
    formatPubDate (some ⟨some y, some m, some d⟩) = m ++ " " ++ d ++ ", " ++ y
    ∧ formatPubDate (some ⟨some y, some m, none⟩) = m ++ " " ++ y
    ∧ (∀ day, formatPubDate (some ⟨some y, none, day⟩) = y)
    ∧ (∀ month day, formatPubDate (some ⟨none, month, day⟩) = "No date")
    ∧ formatPubDate none = "No date" := by
  refine ⟨rfl, rfl, ?_, ?_, rfl⟩
  · intro day
    cases day <;> rfl
  · intro month day
    cases month <;> cases day <;> rfl

theorem fetch_articles_ok_get (xml : List ArticleXml) (ids : List String)
    (i : Nat) (h : i < (fetch_articles_ok xml ids).length) :
    ∃ hi : i < ids.length,
      ((fetch_articles_ok xml ids).get ⟨i, h⟩).pmid = ids.get ⟨i, hi⟩
      ∧ ((fetch_articles_ok xml ids).get ⟨i, h⟩).article_url
        = "https://pubmed.ncbi.nlm.nih.gov/" ++ ids.get ⟨i, hi⟩ ++ "/" := by
  have hlen : (fetch_articles_ok xml ids).length = min xml.length ids.length := by
    simp [fetch_articles_ok]
  have hi : i < ids.length :=
    lt_of_lt_of_le (hlen ▸ h) (min_le_right _ _)
  refine ⟨hi, ?_, ?_⟩ <;>
    simp [fetch_articles_ok, List.get_eq_getElem, List.getElem_zip, parseArticle]

/-- C9: with a non-empty identifier list and a successful fetch, each
returned record is paired positionally with the requested identifier list:
the record at index i carries as pmid the i-th requested identifier and as
article URL exactly the PubMed URL built from that identifier. -/
theorem C9_positional_pairing (ids : List String) (xml : List ArticleXml)
    (use_mock_if_empty : Bool) (current_year : Int) (i : Nat)
    (hids : ids ≠ [])
    (h : i < (fetch_pubmed_articlesM (.ok ids) (.ok xml) use_mock_if_empty
        current_year).length) :
    ∃ hi : i < ids.length,
      ((fetch_pubmed_articlesM (.ok ids) (.ok xml) use_mock_if_empty
          current_year).get ⟨i, h⟩).pmid = ids.get ⟨i, hi⟩
      ∧ ((fetch_pubmed_articlesM (.ok ids) (.ok xml) use_mock_if_empty
          current_year).get ⟨i, h⟩).article_url
        = "https://pubmed.ncbi.nlm.nih.gov/" ++ ids.get ⟨i, hi⟩ ++ "/" := by
  cases ids with
  | nil => exact absurd rfl hids
  | cons id0 idt => exact fetch_articles_ok_get xml (id0 :: idt) i h

/-- C9 witness: the theorem applied at a one-element identifier list. -/
theorem C9_positional_pairing_witness :
    ((fetch_pubmed_articlesM (.ok [("12345")]) (.ok [sampleXml]) false 0).get
        ⟨0, by decide⟩).pmid = "12345"
    ∧ ((fetch_pubmed_articlesM (.ok [("12345")]) (.ok [sampleXml]) false 0).get
        ⟨0, by decide⟩).article_url = "https://pubmed.ncbi.nlm.nih.gov/12345/" := by
  obtain ⟨hi, h1, h2⟩ := C9_positional_pairing [("12345")] [sampleXml] false 0 0
    (by decide) (by decide)
  exact ⟨h1.trans rfl, h2.trans rfl⟩

/-- C10: when every input is empty or blank — no non-blank keyword, no
disease, no two-entry year range, no author, no journal — the built query is
the empty string; and in the search handler, blank form inputs together with
a falsy year bound lead to the warning action, the action that issues no
network request, rather than to a search. -/
theorem C10_empty_query :
    (∀ (keywords : List String) (disease : Option String)
        (year_range : Option (List Int)) (author journal : Option String)
        (logic_operator : String),
      (∀ kw ∈ keywords, pyStrip kw = "") →
      (∀ d, disease = some d → pyStrip d = "") →
      (∀ yr, year_range = some yr → yr.length ≠ 2) →
      (∀ a, author = some a → pyStrip a = "") →
      (∀ j, journal = some j → pyStrip j = "") →
      build_pubmed_query keywords disease year_range author journal
        logic_operator = "")
    ∧ (∀ (keywords disease author journal : String) (s e : Int)
        (logic_operator : String),
      (∀ p ∈ pySplitComma keywords, pyStrip p = "") →
      pyStrip disease = "" → pyStrip author = "" → pyStrip journal = "" →
      (s = 0 ∨ e = 0) →
      handle_search keywords disease author journal s e logic_operator
        = SearchAction.warnEmpty) := by
  have hbuild : ∀ (keywords : List String) (disease : Option String)
      (year_range : Option (List Int)) (author journal : Option String)
      (logic_operator : String),
      (∀ kw ∈ keywords, pyStrip kw = "") →
      (∀ d, disease = some d → pyStrip d = "") →
      (∀ yr, year_range = some yr → yr.length ≠ 2) →
      (∀ a, author = some a → pyStrip a = "") →
      (∀ j, journal = some j → pyStrip j = "") →
      build_pubmed_query keywords disease year_range author journal
        logic_operator = "" := by
    intro keywords disease year_range author journal logic_operator hk hd hy ha hj
    have h1 : keywordClause keywords = [] := by
      have hqk : quotedKeywordsStr keywords = "" := by
        unfold quotedKeywordsStr
        rw [List.filter_eq_nil_iff.mpr (fun a ha' => by simp [hk a ha'])]
        rfl
      simp [keywordClause, hqk]
    have h2 : diseaseClause disease = [] := by
      cases disease with
      | none => rfl
      | some d => simp [diseaseClause, hd d rfl]
    have h3 : yearClause year_range = [] := by
      cases year_range with
      | none => rfl
      | some yr =>
        have hlen := hy yr rfl
        rcases yr with _ | ⟨a, _ | ⟨b, _ | ⟨c, t⟩⟩⟩
        · rfl
        · rfl
        · exact absurd (by simp) hlen
        · rfl
    have h4 : authorClause author = [] := by
      cases author with
      | none => rfl
      | some a => simp [authorClause, ha a rfl]
    have h5 : journalClause journal = [] := by
      cases journal with
      | none => rfl
      | some j => simp [journalClause, hj j rfl]
    simp [build_pubmed_query, queryParts, h1, h2, h3, h4, h5, joinSep]
  refine ⟨hbuild, ?_⟩
  intro keywords disease author journal s e logic_operator hk hd ha hj hse
  simp only [handle_search]
  have hkl : ((pySplitComma keywords).map (fun k => pyStrip k)).filter
      (fun k => k ≠ "") = [] := by
    apply List.filter_eq_nil_iff.mpr
    intro a ha'
    rcases List.mem_map.mp ha' with ⟨p, hp, rfl⟩
    simp [hk p hp]
  have hyr : (if s ≠ 0 ∧ e ≠ 0 then some [s, e] else (none : Option (List Int)))
      = none := by
    rcases hse with rfl | rfl <;> simp
  rw [hkl, hyr]
  have hq := hbuild [] (some disease) none (some author) (some journal)
    logic_operator (by simp)
    (fun d hd' => by cases hd'; exact hd)
    (fun yr hyr' => nomatch hyr')
    (fun a ha' => by cases ha'; exact ha)
    (fun j hj' => by cases hj'; exact hj)
  rw [hq]
  simp

/-- C10 witness: the theorem applied to the all-blank call and to the
all-blank form submission. -/
theorem C10_empty_query_witness :
    build_pubmed_query [("")] none none none none ("AND") = ""
    ∧ handle_search ("") ("") ("") ("") 0 0 ("AND") = SearchAction.warnEmpty :=
  ⟨C10_empty_query.1 [("")] none none none none ("AND") (by decide)
      (fun d hd' => nomatch hd') (fun yr hyr' => nomatch hyr')
      (fun a ha' => nomatch ha') (fun j hj' => nomatch hj'),
   C10_empty_query.2 ("") ("") ("") ("") 0 0 ("AND") (by decide) (by decide)
      (by decide) (by decide) (Or.inl rfl)⟩
